import Mathlib

/-!
Verification development for the connection-swap core of a client telemetry
SDK: an async mutual-exclusion primitive (`Lock`), exporter shims that
serialize export / forceFlush / shutdown / swapExporter through that lock,
and the per-signal `changeConnection` flows for logs and traces.

The definitions below are shallow embeddings of the TypeScript sources:
`lock_object.ts` (class `Lock`), `exporter_shims.ts` (the three
`*ExporterShim` classes, which share one shape), `logging.ts`
(`AnacondaLogging.changeConnection` and its helpers), `traces.ts`
(`AnacondaTrace.changeConnection`), `common.ts` (URL validation,
`transformURL`, `makeHeaders`, `readCredentials`) and `signals.ts`
(`changeSignalConnection`).

Modelling conventions:
* Cooperative async execution is modelled either sequentially (one task,
  promises collapse to values, a rejected promise becomes `Except.error`)
  or, for the mutual-exclusion claim, as an explicit interleaving
  transition system over task phases.
* Sinks (exporter objects) are identified by natural numbers; their
  observable behaviour (what `export` / `forceFlush` / `shutdown` do when
  invoked) is supplied by an environment.
* Environment-variable and console overrides of the configuration getters
  are fixed off: the endpoint getters read the stored endpoint tuple,
  which is the state space all the claims below speak about.
-/

/-! ### The `Lock` class (`lock_object.ts`)

State of a `Lock`: the `_locked` flag and the FIFO list of waiting
continuations.  Waiters are identified by task identifiers. -/

structure LockState where
  locked : Bool
  waiting : List Nat
deriving DecidableEq, Repr

/-- `Lock.release` from the source: if waiters exist, dequeue the next one
and hand it the lock directly (the `_locked` flag is not written, so it
stays `true` while held); otherwise set `_locked := false`.  Returns the
new lock state together with the waiter the lock was handed to, if any. -/
def Lock.release (s : LockState) : LockState × Option Nat :=
  match s.waiting with
  | [] => ({ locked := false, waiting := [] }, none)
  | w :: ws => ({ locked := s.locked, waiting := ws }, some w)

/-- `Lock.runExclusive(fn)` observed from an uncontended lock: `acquire()`
takes the fast path (sets `_locked := true`), then `fn` runs; tasks that
call `acquire` while `fn` is suspended are appended FIFO (`arrivals`);
finally the `try/finally` block calls `release()` exactly once, whether
`fn` returned a value (`Except.ok`) or threw / rejected (`Except.error`).
Returns the settled outcome, the lock state after the single release, and
the waiter the lock was handed to, if any. -/
def Lock.runExclusiveFrom (waiting0 arrivals : List Nat)
    (outcome : Except String Nat) : Except String Nat × LockState × Option Nat :=
  match outcome with
  | .ok v =>
      let r := Lock.release { locked := true, waiting := waiting0 ++ arrivals }
      (.ok v, r.1, r.2)
  | .error e =>
      let r := Lock.release { locked := true, waiting := waiting0 ++ arrivals }
      (.error e, r.1, r.2)

/-! ### Exporter shims (`exporter_shims.ts`), sequential denotation

`MetricExporterShim`, `SpanExporterShim` and `LogRecordExporterShim` have
the same fields and the same method bodies (the span/log variants omit
nothing the claims need), so one embedding serves all three.  A shim holds
the identifier of its current internal exporter and the `_shutdown` flag;
the lock is left implicit in this sequential denotation (the interleaving
model below treats it explicitly). -/

/-- `ExportResultCode` from the OpenTelemetry core library. -/
def ExportResultCode.SUCCESS : Nat := 0

/-- `ExportResultCode.FAILED` from the OpenTelemetry core library. -/
def ExportResultCode.FAILED : Nat := 1

/-- An `ExportResult`: a result code plus an optional error message. -/
structure ExportResult where
  code : Nat
  error : Option String
deriving DecidableEq, Repr

/-- How a sink's `export(batch, cb)` behaves when invoked: either it
invokes the callback with the given result, or it throws synchronously. -/
inductive ExportBeh where
  | ret (r : ExportResult)
  | throws (msg : String)
deriving DecidableEq, Repr

/-- Observable behaviour of one sink (exporter object). -/
structure SinkBeh where
  exportBeh : ExportBeh
  flushBeh : Except String Unit
  shutdownBeh : Except String Unit
deriving Repr

/-- Environment: behaviour of every sink, keyed by sink identifier. -/
def SinkEnv := Nat → SinkBeh

/-- Fields of an exporter shim: `_internalExporter` (a sink identifier)
and the `_shutdown` flag. -/
structure ShimState where
  _internalExporter : Nat
  _shutdown : Bool
deriving DecidableEq, Repr

/-- `swapExporter(newExporter)` from the source: save the current internal
exporter (read before the critical section), then under the lock install
the new exporter and clear `_shutdown := false`; the saved exporter is
returned.  Result: (returned old exporter, shim state afterwards). -/
def ShimState.swapExporter (s : ShimState) (newExporter : Nat) : Nat × ShimState :=
  let saved := s._internalExporter
  (saved, { _internalExporter := newExporter, _shutdown := false })

/-- Observable outcome of one `export(batch, cb)` call on the shim:
the callback invocations in order, the sinks whose `export` was invoked,
whether the mutex was used, and the shim state afterwards. -/
structure ExportCall where
  callbacks : List ExportResult
  touched : List Nat
  usedLock : Bool
  state : ShimState
deriving DecidableEq, Repr

/-- `export(batch, resultCallback)` from the source: fast-path check of
`_shutdown` outside the mutex; if set, invoke the callback once with
`FAILED` / `exporter is shutdown`.  Otherwise, under `runExclusive`, call
`_internalExporter.export`; a synchronous throw is caught and converted to
a `FAILED` callback invocation. -/
def ShimState.exportCall (beh : SinkEnv) (s : ShimState) : ExportCall :=
  if s._shutdown then
    { callbacks := [⟨ExportResultCode.FAILED, some "exporter is shutdown"⟩]
      touched := []
      usedLock := false
      state := s }
  else
    match (beh s._internalExporter).exportBeh with
    | .ret r =>
        { callbacks := [r]
          touched := [s._internalExporter]
          usedLock := true
          state := s }
    | .throws msg =>
        { callbacks := [⟨ExportResultCode.FAILED, some msg⟩]
          touched := [s._internalExporter]
          usedLock := true
          state := s }

/-- Observable outcome of one `forceFlush()` or `shutdown()` call on the
shim: the settled promise, the sinks whose corresponding method was
invoked, whether the mutex was used, and the shim state afterwards. -/
structure AsyncCall where
  result : Except String Unit
  touched : List Nat
  usedLock : Bool
  state : ShimState
deriving Repr

/-- `forceFlush()` from the source: if not shut down, under `runExclusive`
await `_internalExporter.forceFlush()`; otherwise resolve immediately. -/
def ShimState.forceFlushCall (beh : SinkEnv) (s : ShimState) : AsyncCall :=
  if s._shutdown = false then
    { result := (beh s._internalExporter).flushBeh
      touched := [s._internalExporter]
      usedLock := true
      state := s }
  else
    { result := .ok (), touched := [], usedLock := false, state := s }

/-- `shutdown()` from the source: if not shut down, under `runExclusive`
await `_internalExporter.shutdown()` and then set `_shutdown := true` (so
a rejected sink shutdown leaves the flag clear and rejects the promise);
otherwise resolve immediately. -/
def ShimState.shutdownCall (beh : SinkEnv) (s : ShimState) : AsyncCall :=
  if s._shutdown = false then
    match (beh s._internalExporter).shutdownBeh with
    | .ok _ =>
        { result := .ok ()
          touched := [s._internalExporter]
          usedLock := true
          state := { s with _shutdown := true } }
    | .error m =>
        { result := .error m
          touched := [s._internalExporter]
          usedLock := true
          state := s }
  else
    { result := .ok (), touched := [], usedLock := false, state := s }

/-! ### Interleaving model of the shim operations over one `Lock`

Each of the four shim operations (`export`, `forceFlush`, `shutdown`,
`swapExporter`) runs its sink-touching body as the critical section of
the shim's single `Lock` (`runExclusive`).  The model below is a labelled
transition system: an unbounded supply of tasks, each tagged with the
operation it performs, each going through the phases
start → (waiting →) critical → done.  The transitions are exactly the
`Lock` source: the `acquire` fast path, the `acquire` enqueue path, and
the two `release` paths (hand the lock to the FIFO head, or clear
`_locked`). -/

/-- Which shim operation a task is performing. -/
inductive ShimOp where
  | exportOp
  | flushOp
  | shutdownOp
  | swapOp
deriving DecidableEq, Repr

/-- Phase of one task with respect to the lock: not yet at `acquire`,
suspended in the wait queue, executing the critical section (the
sink-touching body passed to `runExclusive`), or finished. -/
inductive Phase where
  | start
  | waiting
  | critical
  | done
deriving DecidableEq, Repr

/-- One task: the shim operation it performs and its current phase. -/
structure TaskSt where
  op : ShimOp
  phase : Phase
deriving DecidableEq, Repr

/-- Global state of the interleaving model: the `Lock` fields (`_locked`
flag, FIFO wait queue of task identifiers) plus the phase of every task. -/
structure MutexSys where
  locked : Bool
  queue : List Nat
  tasks : Nat → TaskSt

/-- Initial state for a given assignment of operations to tasks: lock
free, queue empty, every task before its `acquire`. -/
def MutexSys.init (ops : Nat → ShimOp) : MutexSys :=
  { locked := false, queue := [], tasks := fun i => ⟨ops i, Phase.start⟩ }

/-- Set the phase of task `i`. -/
def MutexSys.setPhase (s : MutexSys) (i : Nat) (p : Phase) : Nat → TaskSt :=
  Function.update s.tasks i ⟨(s.tasks i).op, p⟩

/-- One interleaving step.  `acquireFast`: `acquire()` finds the lock free
and takes it.  `acquireWait`: `acquire()` finds the lock held and appends
the caller to the FIFO queue.  `releaseLast`: the critical task finishes
and `release()` finds no waiter, so it clears `_locked`.  `releaseHand`:
the critical task finishes and `release()` dequeues the FIFO head and
hands it the lock directly, without writing `_locked`. -/
inductive MutexStep : MutexSys → MutexSys → Prop where
  | acquireFast (s : MutexSys) (i : Nat)
      (hp : (s.tasks i).phase = Phase.start)
      (hl : s.locked = false) :
      MutexStep s { locked := true, queue := s.queue,
                    tasks := s.setPhase i Phase.critical }
  | acquireWait (s : MutexSys) (i : Nat)
      (hp : (s.tasks i).phase = Phase.start)
      (hl : s.locked = true) :
      MutexStep s { locked := s.locked, queue := s.queue ++ [i],
                    tasks := s.setPhase i Phase.waiting }
  | releaseLast (s : MutexSys) (i : Nat)
      (hp : (s.tasks i).phase = Phase.critical)
      (hq : s.queue = []) :
      MutexStep s { locked := false, queue := [],
                    tasks := s.setPhase i Phase.done }
  | releaseHand (s : MutexSys) (i j : Nat) (rest : List Nat)
      (hp : (s.tasks i).phase = Phase.critical)
      (hq : s.queue = j :: rest) :
      MutexStep s { locked := s.locked, queue := rest,
                    tasks := Function.update (s.setPhase i Phase.done) j
                               ⟨(s.tasks j).op, Phase.critical⟩ }

/-- States reachable from the initial state by interleaving steps. -/
inductive MutexReachable (ops : Nat → ShimOp) : MutexSys → Prop where
  | init : MutexReachable ops (MutexSys.init ops)
  | step {s s' : MutexSys} : MutexReachable ops s → MutexStep s s' →
      MutexReachable ops s'

/-- Inductive invariant of the lock system: no two distinct tasks are in
their critical sections; a free lock means no critical task; queued tasks
are in the waiting phase; and the queue has no duplicates. -/
def MutexInv (s : MutexSys) : Prop :=
  (∀ i j, i ≠ j → (s.tasks i).phase = Phase.critical →
      (s.tasks j).phase ≠ Phase.critical) ∧
  (s.locked = false → ∀ i, (s.tasks i).phase ≠ Phase.critical) ∧
  (∀ j ∈ s.queue, (s.tasks j).phase = Phase.waiting) ∧
  s.queue.Nodup

lemma mutexInv_init (ops : Nat → ShimOp) : MutexInv (MutexSys.init ops) := by
  refine ⟨?_, ?_, ?_, ?_⟩
  · intro i j _ hi
    simp [MutexSys.init] at hi
  · intro _ i
    simp [MutexSys.init]
  · intro j hj
    simp [MutexSys.init] at hj
  · simp [MutexSys.init]

lemma mutexInv_step {s s' : MutexSys} (hinv : MutexInv s)
    (hstep : MutexStep s s') : MutexInv s' := by
  obtain ⟨hmutex, hfree, hqueue, hnodup⟩ := hinv
  cases hstep with
  | acquireFast i hp hl =>
      refine ⟨?_, ?_, ?_, hnodup⟩
      · intro a b hab ha hb
        simp only [MutexSys.setPhase, Function.update_apply] at ha hb
        by_cases hbi : b = i
        · by_cases hai : a = i
          · exact hab (hai.trans hbi.symm)
          · simp only [hai, if_false] at ha
            exact (hfree hl a) ha
        · simp only [hbi, if_false] at hb
          exact (hfree hl b) hb
      · intro hfalse
        cases hfalse
      · intro j hj
        have hjq := hqueue j hj
        have hji : j ≠ i := by
          intro h
          rw [h, hp] at hjq
          cases hjq
        simp only [MutexSys.setPhase, Function.update_apply, hji, if_false]
        exact hjq
  | acquireWait i hp hl =>
      refine ⟨?_, ?_, ?_, ?_⟩
      · intro a b hab ha hb
        simp only [MutexSys.setPhase, Function.update_apply] at ha hb
        by_cases hai : a = i
        · simp only [hai, if_true, if_pos rfl] at ha
          cases ha
        · by_cases hbi : b = i
          · simp only [hbi, if_true, if_pos rfl] at hb
            cases hb
          · simp only [hai, if_false] at ha
            simp only [hbi, if_false] at hb
            exact hmutex a b hab ha hb
      · intro hfalse
        have hsl : s.locked = false := hfalse
        rw [hl] at hsl
        cases hsl
      · intro j hj
        have hj' : j ∈ s.queue ++ [i] := hj
        simp only [List.mem_append, List.mem_singleton] at hj'
        simp only [MutexSys.setPhase, Function.update_apply]
        cases hj' with
        | inl hjq =>
            have hjw := hqueue j hjq
            have hji : j ≠ i := by
              intro h
              rw [h, hp] at hjw
              cases hjw
            simp only [hji, if_false]
            exact hjw
        | inr hji =>
            simp [hji]
      · have hnotin : i ∉ s.queue := by
          intro hmem
          have := hqueue i hmem
          rw [hp] at this
          cases this
        rw [List.nodup_append]
        refine ⟨hnodup, List.nodup_singleton i, ?_⟩
        intro a ha hai
        rw [List.mem_singleton] at hai
        exact hnotin (hai ▸ ha)
  | releaseLast i hp hq =>
      refine ⟨?_, ?_, ?_, ?_⟩
      · intro a b hab ha hb
        simp only [MutexSys.setPhase, Function.update_apply] at ha hb
        by_cases hai : a = i
        · simp only [hai, if_pos rfl] at ha
          cases ha
        · by_cases hbi : b = i
          · simp only [hbi, if_pos rfl] at hb
            cases hb
          · simp only [hai, if_false] at ha
            simp only [hbi, if_false] at hb
            exact hmutex a b hab ha hb
      · intro _ a
        simp only [MutexSys.setPhase, Function.update_apply]
        by_cases hai : a = i
        · simp only [hai, if_pos rfl]
          intro h
          cases h
        · simp only [hai, if_false]
          intro ha
          exact (hmutex a i hai ha) hp
      · intro j hj
        cases hj
      · exact List.nodup_nil
  | releaseHand i j rest hp hq =>
      have hjq : j ∈ s.queue := by
        rw [hq]
        exact List.mem_cons_self j rest
      have hjw : (s.tasks j).phase = Phase.waiting := hqueue j hjq
      have hij : i ≠ j := by
        intro h
        rw [h, hjw] at hp
        cases hp
      have hjrest : j ∉ rest := by
        have hnd := hnodup
        rw [hq] at hnd
        exact (List.nodup_cons.mp hnd).1
      refine ⟨?_, ?_, ?_, ?_⟩
      · intro a b hab ha hb
        simp only [MutexSys.setPhase, Function.update_apply] at ha hb
        by_cases haj : a = j
        · have hbj : b ≠ j := fun h => hab (haj.trans h.symm)
          simp only [hbj, if_false] at hb
          by_cases hbi : b = i
          · simp only [hbi, if_pos rfl] at hb
            cases hb
          · simp only [hbi, if_false] at hb
            exact (hmutex i b (fun h => hbi h.symm) hp) hb
        · simp only [haj, if_false] at ha
          by_cases hai : a = i
          · simp only [hai, if_pos rfl] at ha
            cases ha
          · simp only [hai, if_false] at ha
            exact (hmutex a i hai ha) hp
      · intro hlf a
        exfalso
        have hsl : s.locked = false := hlf
        exact (hfree hsl i) hp
      · intro a ha
        have hamem : a ∈ s.queue := by
          rw [hq]
          exact List.mem_cons_of_mem j ha
        have haw := hqueue a hamem
        have haj : a ≠ j := fun h => hjrest (h ▸ ha)
        have hai : a ≠ i := by
          intro h
          rw [h, hp] at haw
          cases haw
        simp only [MutexSys.setPhase, Function.update_apply, haj, hai,
          if_false]
        exact haw
      · rw [hq] at hnodup
        exact (List.nodup_cons.mp hnodup).2

lemma mutexInv_reachable {ops : Nat → ShimOp} {s : MutexSys}
    (h : MutexReachable ops s) : MutexInv s := by
  induction h with
  | init => exact mutexInv_init ops
  | step _ hstep ih => exact mutexInv_step ih hstep

/-! ### URL validation and scheme handling (`common.ts`)

A `URL` object is modelled by its components as the JS `URL` parser
exposes them (`protocol` keeps its trailing colon; `port` is a digit
string or empty; `search` / `hash` include their leading `?` / `#` when
nonempty).  `isValidOtelUrl` takes the `href` of such a URL; parsing the
href back yields the same components, so the embedding checks the
components directly.  The bare hrefs "console:" / "devnull:" correspond
to component records whose non-protocol fields are all empty. -/

structure URLt where
  protocol : String
  hostname : String
  port : String
  pathname : String
  search : String
  hash : String
deriving DecidableEq, Repr

/-- All non-protocol components empty: the URL's href is just its scheme,
as for `new URL("console:")` / `new URL("devnull:")`. -/
def URLt.isBare (u : URLt) : Bool :=
  u.hostname = "" && u.port = "" && u.pathname = "" && u.search = "" &&
    u.hash = ""

/-- JS `String.prototype.split` on a single-character separator. -/
def splitOnChar (c : Char) : List Char → List (List Char)
  | [] => [[]]
  | x :: xs =>
      if x = c then [] :: splitOnChar c xs
      else
        match splitOnChar c xs with
        | [] => [[x]]
        | h :: t => (x :: h) :: t

/-- Decimal value of a digit string (structural, used in place of the JS
`Number` conversion on strings that are known to be all digits). -/
def digitsToNat (l : List Char) : Nat :=
  l.foldl (fun acc c => acc * 10 + (c.toNat - '0'.toNat)) 0

/-- `isValidPort`: the port string parses to an integer in 1..65535
(`URL.port` is always digits or empty, so `Number(portStr)` is the
decimal value). -/
def isValidPort (p : String) : Bool :=
  if p.toList ≠ [] && p.toList.all Char.isDigit then
    1 ≤ digitsToNat p.toList && digitsToNat p.toList ≤ 65535
  else false

/-- One dotted part of an IPv4 address: 1-3 digits, value ≤ 255, no
leading zero on multi-digit parts (`^\d{1,3}$` plus the range check). -/
def ipv4PartOk (p : List Char) : Bool :=
  1 ≤ p.length && p.length ≤ 3 && p.all Char.isDigit &&
    digitsToNat p ≤ 255 &&
    !(p.length > 1 && p.headI = '0')

/-- `isValidIpv4` from the source: exactly four dotted parts, each one a
valid octet. -/
def isValidIpv4 (s : String) : Bool :=
  let parts := splitOnChar '.' s.toList
  parts.length = 4 && parts.all ipv4PartOk

/-- A lowercase alphanumeric character (after `toLowerCase`). -/
def lowerAlnum (c : Char) : Bool :=
  ('a' ≤ c && c ≤ 'z') || c.isDigit

/-- One domain label: `[a-z0-9]([a-z0-9-]{0,61}[a-z0-9])?`. -/
def labelOk (l : List Char) : Bool :=
  match l with
  | [] => false
  | [c] => lowerAlnum c
  | c :: rest =>
      lowerAlnum c && (c :: rest).length ≤ 63 &&
        lowerAlnum ((c :: rest).getLast (by simp)) &&
        rest.dropLast.all (fun d => lowerAlnum d || d = '-')

/-- The top-level domain label: 2-63 lowercase letters. -/
def tldOk (l : List Char) : Bool :=
  2 ≤ l.length && l.length ≤ 63 && l.all (fun c => 'a' ≤ c && c ≤ 'z')

/-- `isValidDomain` from the source: lowercase the host, require nonzero
length ≤ 253, at least one dot, no empty label, every label matching the
label pattern, and a letters-only TLD of length 2-63. -/
def isValidDomain (host : String) : Bool :=
  let h := (host.toList.map Char.toLower)
  let labels := splitOnChar '.' h
  0 < h.length && h.length ≤ 253 && h.contains '.' &&
    labels.all (fun l => l.length ≠ 0) &&
    labels.all labelOk &&
    tldOk (labels.getLastD [])

/-- `isValidHost`: "localhost", a valid IPv4 address, or a valid domain. -/
def isValidHost (hostname : String) : Bool :=
  hostname = "localhost" || isValidIpv4 hostname || isValidDomain hostname

/-- `isValidOtelHttpUrl`: scheme http/https, valid host, valid port when
present, exact path `/v1/{metrics|logs|traces}`, no query or fragment. -/
def isValidOtelHttpUrl (u : URLt) : Bool :=
  (u.protocol = "http:" || u.protocol = "https:") &&
    isValidHost u.hostname &&
    (u.port = "" || isValidPort u.port) &&
    (u.pathname = "/v1/metrics" || u.pathname = "/v1/logs" ||
      u.pathname = "/v1/traces") &&
    u.search = "" && u.hash = ""

/-- `isValidOtelGrpcUrl`: scheme grpc/grpcs, valid host, valid port when
present, no path beyond "/", no query or fragment. -/
def isValidOtelGrpcUrl (u : URLt) : Bool :=
  (u.protocol = "grpc:" || u.protocol = "grpcs:") &&
    isValidHost u.hostname &&
    (u.port = "" || isValidPort u.port) &&
    u.pathname = "/" &&
    u.search = "" && u.hash = ""

/-- `isValidOtelUrl(urlStr)`: the bare strings "console:" and "devnull:",
or a valid OTLP http or grpc URL. -/
def isValidOtelUrl (u : URLt) : Bool :=
  (u.protocol = "console:" && u.isBare) ||
    (u.protocol = "devnull:" && u.isBare) ||
    isValidOtelHttpUrl u || isValidOtelGrpcUrl u

/-- `transformURL(url)` from `common.ts`: remember the original scheme and
rewrite grpcs→https, grpc→http on a copy of the URL. -/
def transformURL (u : URLt) : String × URLt :=
  let scheme := u.protocol
  let p1 := u.protocol.replace "grpcs:" "https:"
  let p2 := p1.replace "grpc:" "http:"
  (scheme, { u with protocol := p2 })

/-- Does a scheme string start with "http"? (`scheme.startsWith('http')`) -/
def startsWithHttp (s : String) : Bool :=
  match s.toList with
  | 'h' :: 't' :: 't' :: 'p' :: _ => true
  | _ => false

/-- `makeHeaders(scheme, authToken)` from `common.ts`: a Bearer header
when a token is supplied, plus a protobuf content type for http-like
schemes. -/
def makeHeaders (scheme : String) (authToken : Option String) :
    List (String × String) :=
  let headers :=
    match authToken with
    | some tok => [("Authorization", "Bearer " ++ tok)]
    | none => []
  if startsWithHttp scheme then
    headers ++ [("Content-Type", "application/x-protobuf")]
  else headers

/-- `readCredentials(scheme, certFile)` (identical in `logging.ts` and
`traces.ts`): only for the grpcs scheme and a supplied cert file, read the
file; a failed read is logged and yields no credentials.  The credential
value is modelled as the certificate text. -/
def readCredentials (fsRead : String → Option String) (scheme : String)
    (certFile : Option String) : Option String :=
  match certFile with
  | some f =>
      if scheme = "grpcs:" then
        match fsRead f with
        | some content => some content
        | none => none
      else none
  | none => none

/-! ### The `changeConnection` flows (`logging.ts`, `traces.ts`)

The per-signal state is the stored endpoint tuple
(`config.loggingEndpoint` / `config.traceEndpoint`), the signal's
attribute state (the logging flow writes `attributes.userId`), whether a
batch processor exists, the exporter shim, and a counter for allocating
identities to freshly constructed exporter objects.  A rejected awaited
promise propagates out of `changeConnection` as `Except.error` because
the source awaits `processor?.forceFlush()` and `oldExporter?.shutdown()`
with no surrounding try/catch. -/

/-- JS `String.prototype.trim`: drop whitespace from both ends. -/
def jsTrim (s : String) : String :=
  String.mk
    (((s.toList.dropWhile Char.isWhitespace).reverse.dropWhile
        Char.isWhitespace).reverse)

/-- A constructed exporter (sink), by scheme dispatch: OTLP/gRPC with its
`host:port` target, headers and optional credentials; OTLP/HTTP with the
(protocol-rewritten) URL and headers; the console debug exporter; or the
no-op exporter. -/
inductive SinkSpec where
  | otlpGrpc (url : String) (headers : List (String × String))
      (creds : Option String)
  | otlpHttp (u : URLt) (headers : List (String × String))
  | consoleSink
  | noopSink
deriving DecidableEq, Repr

/-- `AnacondaLogging.makeExporter` (`logging.ts`): dispatch on the
original scheme; grpc/grpcs targets `hostname:port`; http/https uses the
URL; `console:` and `devnull:` build in-memory exporters; anything else
logs a warning and yields `undefined`. -/
def AnacondaLogging.makeExporter (scheme : String) (url : URLt)
    (httpHeaders : List (String × String)) (creds : Option String) :
    Option SinkSpec :=
  if scheme = "grpc:" || scheme = "grpcs:" then
    some (SinkSpec.otlpGrpc (url.hostname ++ ":" ++ url.port) httpHeaders creds)
  else if scheme = "http:" || scheme = "https:" then
    some (SinkSpec.otlpHttp url httpHeaders)
  else if scheme = "console:" then some SinkSpec.consoleSink
  else if scheme = "devnull:" then some SinkSpec.noopSink
  else none

/-- `AnacondaTrace.makeExporter` (`traces.ts`): same dispatch as the
logging variant, building the trace exporter classes. -/
def AnacondaTrace.makeExporter (scheme : String) (url : URLt)
    (httpHeaders : List (String × String)) (creds : Option String) :
    Option SinkSpec :=
  if scheme = "grpc:" || scheme = "grpcs:" then
    some (SinkSpec.otlpGrpc (url.hostname ++ ":" ++ url.port) httpHeaders creds)
  else if scheme = "http:" || scheme = "https:" then
    some (SinkSpec.otlpHttp url httpHeaders)
  else if scheme = "console:" then some SinkSpec.consoleSink
  else if scheme = "devnull:" then some SinkSpec.noopSink
  else none

/-- Environment for a connection change: the file system (for
certificate reads), the behaviour of the processor's `forceFlush`, and
the behaviour of every sink. -/
structure ChangeEnv where
  fsRead : String → Option String
  flushBeh : Except String Unit
  sinks : SinkEnv

/-- State of an `AnacondaLogging` instance as far as `changeConnection`
observes and mutates it. -/
structure LoggingState where
  loggingEndpoint : URLt × Option String × Option String
  userId : String
  processorPresent : Bool
  parentExporter : Option ShimState
  nextSinkId : Nat
deriving DecidableEq, Repr

/-- Observable outcome of `AnacondaLogging.changeConnection`: the settled
promise (`Except.error` = rejected), the state afterwards, the exporter
objects constructed, and the sinks whose `shutdown()` the call awaited. -/
structure LogChangeOut where
  result : Except String Bool
  state : LoggingState
  constructed : List SinkSpec
  shutdownCalls : List Nat
deriving Repr

/-- `AnacondaLogging.changeConnection(endpoint, authToken, certFile,
userId)` from `logging.ts`, line by line: (1) if an endpoint was supplied
and fails `isValidOtelUrl`, log and return `false`; (2) merge onto
`config.loggingEndpoint` — the endpoint slot only when the argument is
defined and differs, the authToken and certFile slots whenever the
argument differs from the stored value (also when the argument is
`undefined`); (3) apply a trimmed nonempty `userId` to
`attributes.userId`; (4) `transformURL`, `readCredentials`,
`makeHeaders(scheme, authToken)` and `makeExporter`; `undefined` exporter
returns `false`; (5) await `processor?.forceFlush()`; (6) await
`parentExporter?.swapExporter(exporter)`; (7) await
`oldExporter?.shutdown()`; (8) return `true`.  Steps 5 and 7 are awaited
without try/catch, so their rejections propagate. -/
def AnacondaLogging.changeConnection (env : ChangeEnv) (st : LoggingState)
    (endpoint : Option URLt) (authToken certFile userId : Option String) :
    LogChangeOut :=
  if (match endpoint with
      | some e => !(isValidOtelUrl e)
      | none => false) then
    { result := .ok false, state := st, constructed := [], shutdownCalls := [] }
  else
    let url := st.loggingEndpoint.1
    let token := st.loggingEndpoint.2.1
    let cert := st.loggingEndpoint.2.2
    let url' := match endpoint with
      | some e => e
      | none => url
    let token' := if authToken ≠ token then authToken else token
    let cert' := if certFile ≠ cert then certFile else cert
    let userId' := match userId.map jsTrim with
      | some t => if t.length > 0 then t else st.userId
      | none => st.userId
    let st1 := { st with loggingEndpoint := (url', token', cert'),
                         userId := userId' }
    let schemeEp := transformURL url'
    let creds := readCredentials env.fsRead schemeEp.1 cert'
    let headers := makeHeaders schemeEp.1 authToken
    match AnacondaLogging.makeExporter schemeEp.1 schemeEp.2 headers creds with
    | none =>
        { result := .ok false, state := st1, constructed := [],
          shutdownCalls := [] }
    | some spec =>
        let newId := st.nextSinkId
        let st2 := { st1 with nextSinkId := newId + 1 }
        let flushResult := if st.processorPresent then env.flushBeh else .ok ()
        match flushResult with
        | .error m =>
            { result := .error m, state := st2, constructed := [spec],
              shutdownCalls := [] }
        | .ok _ =>
            match st.parentExporter with
            | none =>
                { result := .ok true, state := st2, constructed := [spec],
                  shutdownCalls := [] }
            | some shim =>
                let swap := shim.swapExporter newId
                let st3 := { st2 with parentExporter := some swap.2 }
                match (env.sinks swap.1).shutdownBeh with
                | .error m =>
                    { result := .error m, state := st3,
                      constructed := [spec], shutdownCalls := [swap.1] }
                | .ok _ =>
                    { result := .ok true, state := st3,
                      constructed := [spec], shutdownCalls := [swap.1] }

/-- State of an `AnacondaTrace` instance as far as `changeConnection`
observes and mutates it. -/
structure TraceState where
  traceEndpoint : URLt × Option String × Option String
  processorPresent : Bool
  parentExporter : Option ShimState
  nextSinkId : Nat
deriving DecidableEq, Repr

/-- Observable outcome of `AnacondaTrace.changeConnection`. -/
structure TraceChangeOut where
  result : Except String Bool
  state : TraceState
  constructed : List SinkSpec
  shutdownCalls : List Nat
deriving Repr

/-- `AnacondaTrace.changeConnection(endpoint, authToken, certFile)` from
`traces.ts`: the same flow as the logging variant except that there is NO
endpoint validation step and no userId handling — the merge onto
`config.traceEndpoint` happens unconditionally, then scheme dispatch,
flush, swap, old-sink shutdown, `true`. -/
def AnacondaTrace.changeConnection (env : ChangeEnv) (st : TraceState)
    (endpoint : Option URLt) (authToken certFile : Option String) :
    TraceChangeOut :=
  let url := st.traceEndpoint.1
  let token := st.traceEndpoint.2.1
  let cert := st.traceEndpoint.2.2
  let url' := match endpoint with
    | some e => e
    | none => url
  let token' := if authToken ≠ token then authToken else token
  let cert' := if certFile ≠ cert then certFile else cert
  let st1 := { st with traceEndpoint := (url', token', cert') }
  let schemeEp := transformURL url'
  let creds := readCredentials env.fsRead schemeEp.1 cert'
  let headers := makeHeaders schemeEp.1 authToken
  match AnacondaTrace.makeExporter schemeEp.1 schemeEp.2 headers creds with
  | none =>
      { result := .ok false, state := st1, constructed := [],
        shutdownCalls := [] }
  | some spec =>
      let newId := st.nextSinkId
      let st2 := { st1 with nextSinkId := newId + 1 }
      let flushResult := if st.processorPresent then env.flushBeh else .ok ()
      match flushResult with
      | .error m =>
          { result := .error m, state := st2, constructed := [spec],
            shutdownCalls := [] }
      | .ok _ =>
          match st.parentExporter with
          | none =>
              { result := .ok true, state := st2, constructed := [spec],
                shutdownCalls := [] }
          | some shim =>
              let swap := shim.swapExporter newId
              let st3 := { st2 with parentExporter := some swap.2 }
              match (env.sinks swap.1).shutdownBeh with
              | .error m =>
                  { result := .error m, state := st3,
                    constructed := [spec], shutdownCalls := [swap.1] }
              | .ok _ =>
                  { result := .ok true, state := st3,
                    constructed := [spec], shutdownCalls := [swap.1] }

/-! ### The public dispatcher (`signals.ts`) -/

/-- The selectable signal kinds of `changeSignalConnection`. -/
inductive Signal where
  | metrics
  | tracing
deriving DecidableEq, Repr

/-- The module-level signal state of `signals-state.ts`: the
`__initialized` flag and the optional per-signal instances.  The metrics
instance's `changeConnection` is invoked through the same signature as
the trace one; its connection state is represented by the same state
shape (the claim about this dispatcher only exercises the guard paths,
which never reach an instance). -/
structure SignalsState where
  initialized : Bool
  metrics : Option TraceState
  tracing : Option TraceState
deriving Repr

/-- Observable outcome of `changeSignalConnection`. -/
structure SignalChangeOut where
  result : Except String Bool
  state : SignalsState
  constructed : List SinkSpec
  shutdownCalls : List Nat
deriving Repr

/-- `changeSignalConnection(signal, endpoint, authToken, certFile)` from
`signals.ts`: if `__initialized` is false, return `false`; otherwise
dispatch to the selected instance's `changeConnection`, with `?? false`
turning a missing instance into `false`.  A rejection from the instance
call propagates (there is no try/catch). -/
def changeSignalConnection (env : ChangeEnv) (g : SignalsState)
    (signal : Signal) (endpoint : Option URLt)
    (authToken certFile : Option String) : SignalChangeOut :=
  if g.initialized = false then
    { result := .ok false, state := g, constructed := [], shutdownCalls := [] }
  else
    match signal with
    | .metrics =>
        match g.metrics with
        | none =>
            { result := .ok false, state := g, constructed := [],
              shutdownCalls := [] }
        | some m =>
            let out := AnacondaTrace.changeConnection env m endpoint
              authToken certFile
            { result := out.result, state := { g with metrics := some out.state },
              constructed := out.constructed,
              shutdownCalls := out.shutdownCalls }
    | .tracing =>
        match g.tracing with
        | none =>
            { result := .ok false, state := g, constructed := [],
              shutdownCalls := [] }
        | some t =>
            let out := AnacondaTrace.changeConnection env t endpoint
              authToken certFile
            { result := out.result, state := { g with tracing := some out.state },
              constructed := out.constructed,
              shutdownCalls := out.shutdownCalls }

/-! ### Concrete fixtures used by counterexamples and witnesses -/

/-- A sink environment in which every sink succeeds. -/
def sampleSinks : SinkEnv :=
  fun _ => ⟨ExportBeh.ret ⟨ExportResultCode.SUCCESS, none⟩, .ok (), .ok ()⟩

/-- A sink environment in which every sink's `shutdown()` rejects. -/
def badShutdownSinks : SinkEnv :=
  fun _ => ⟨ExportBeh.ret ⟨ExportResultCode.SUCCESS, none⟩, .ok (),
    .error "sink shutdown rejected"⟩

/-- A connection-change environment in which everything succeeds. -/
def okChangeEnv : ChangeEnv :=
  { fsRead := fun _ => none, flushBeh := .ok (), sinks := sampleSinks }

/-- A connection-change environment in which old-sink shutdowns reject. -/
def badShutdownChangeEnv : ChangeEnv :=
  { fsRead := fun _ => none, flushBeh := .ok (), sinks := badShutdownSinks }

/-- The parsed form of `http://localhost:4318/v1/logs` (a valid OTLP/HTTP
logs endpoint). -/
def httpLogsUrl : URLt := ⟨"http:", "localhost", "4318", "/v1/logs", "", ""⟩

/-- The parsed form of `ftp://somehost.domain:34545/` (the invalid-scheme
URL used by the repository's own test "Test bad changeConnection URL"). -/
def ftpUrl : URLt := ⟨"ftp:", "somehost.domain", "34545", "/", "", ""⟩

/-- The parsed form of the default endpoint `grpc://localhost:4317/`. -/
def grpcDefaultUrl : URLt := ⟨"grpc:", "localhost", "4317", "/", "", ""⟩

/-- A logging instance: stored endpoint tuple with a token and a cert
file, empty user id, live processor, shim on sink 0. -/
def sampleLoggingState : LoggingState :=
  { loggingEndpoint := (grpcDefaultUrl, some "tok", some "cert")
    userId := ""
    processorPresent := true
    parentExporter := some ⟨0, false⟩
    nextSinkId := 1 }

/-- A trace instance with the same shape as `sampleLoggingState`. -/
def sampleTraceState : TraceState :=
  { traceEndpoint := (grpcDefaultUrl, some "tok", some "cert")
    processorPresent := true
    parentExporter := some ⟨0, false⟩
    nextSinkId := 1 }

/-- The schemes `makeExporter` dispatches on; anything else makes it
return `undefined`. -/
def supportedScheme (s : String) : Bool :=
  s = "grpc:" || s = "grpcs:" || s = "http:" || s = "https:" ||
    s = "console:" || s = "devnull:"

lemma traceMakeExporter_none (sch : String) (u : URLt)
    (hd : List (String × String)) (c : Option String)
    (hs : supportedScheme sch = false) :
    AnacondaTrace.makeExporter sch u hd c = none := by
  simp only [supportedScheme, Bool.or_eq_false_iff, decide_eq_false_iff_not] at hs
  obtain ⟨⟨⟨⟨⟨h1, h2⟩, h3⟩, h4⟩, h5⟩, h6⟩ := hs
  simp [AnacondaTrace.makeExporter, h1, h2, h3, h4, h5, h6]

/-! ### The claims -/

/-- Claim C1: for every shim instance and every interleaving of concurrent
`export` / `forceFlush` / `shutdown` / `swapExporter` calls, at most one of
the sink-touching bodies is executing at any instant, because all four
serialize through the shim's single `Lock`: in every state reachable by
the lock's interleaving semantics, no two distinct tasks are in their
critical sections, whatever operations the tasks perform. -/
theorem C1_shim_mutual_exclusion (ops : Nat → ShimOp) (s : MutexSys)
    (h : MutexReachable ops s) (i j : Nat) (hij : i ≠ j)
    (hi : (s.tasks i).phase = Phase.critical) :
    (s.tasks j).phase ≠ Phase.critical :=
  (mutexInv_reachable h).1 i j hij hi

/-- Witness for C1: after an `export` task takes the free lock, a
concurrent `swapExporter` task is not in its critical section. -/
theorem C1_shim_mutual_exclusion_witness :
    ((({ locked := true,
         queue := [],
         tasks := (MutexSys.init (fun _ => ShimOp.swapOp)).setPhase 0
           Phase.critical } : MutexSys).tasks 1).phase ≠ Phase.critical) :=
  C1_shim_mutual_exclusion (fun _ => ShimOp.swapOp) _
    (MutexReachable.step MutexReachable.init
      (MutexStep.acquireFast (MutexSys.init fun _ => ShimOp.swapOp) 0 rfl rfl))
    0 1 (by decide) (by simp [MutexSys.setPhase, MutexSys.init])

/-- Claim C2 (evaluation at the failing input): the claim says
`changeConnection` never rejects and resolves `true` once the swap has
completed, even if the old sink's shutdown then fails.  The code instead
awaits `oldExporter?.shutdown()` with no try/catch: on an instance whose
old sink's `shutdown()` rejects, the call installs the swap (the shim now
holds the freshly built sink 1) and then REJECTS instead of resolving
`true`. -/
theorem C2_changeConnection_rejects_after_swap :
    (AnacondaLogging.changeConnection badShutdownChangeEnv sampleLoggingState
        (some httpLogsUrl) none none none).result =
      .error "sink shutdown rejected" ∧
    (AnacondaLogging.changeConnection badShutdownChangeEnv sampleLoggingState
        (some httpLogsUrl) none none none).state.parentExporter =
      some ⟨1, false⟩ ∧
    (AnacondaLogging.changeConnection badShutdownChangeEnv sampleLoggingState
        (some httpLogsUrl) none none none).shutdownCalls = [0] :=
  ⟨rfl, rfl, rfl⟩

/-- Counterexample to C3: the trace `changeConnection` performs no
endpoint validation.  Called with the unsupported-scheme URL
`ftp://somehost.domain:34545/`, it returns `false` (at sink construction)
but has already overwritten the stored endpoint tuple with the bad URL —
state IS mutated, contradicting the claim for the traces signal. -/
theorem C3_counterexample_trace_validation :
    (AnacondaTrace.changeConnection okChangeEnv sampleTraceState
        (some ftpUrl) none none).result = .ok false ∧
    (AnacondaTrace.changeConnection okChangeEnv sampleTraceState
        (some ftpUrl) none none).state.traceEndpoint.1 = ftpUrl ∧
    sampleTraceState.traceEndpoint.1 ≠ ftpUrl :=
  ⟨rfl, rfl, by decide⟩

/-- Claim C3 as amended: for logging, a supplied endpoint that fails
validation makes `changeConnection` return `false` with no state
mutation, no sink construction and no sink shutdown.  For traces there is
no endpoint validation: a call whose supplied endpoint has an unsupported
scheme returns `false` only at sink construction, after the stored
endpoint tuple has already been overwritten with the new URL; no sink is
swapped in and none is shut down. -/
theorem C3_invalid_scheme_behavior (env : ChangeEnv) (ls : LoggingState)
    (ts : TraceState) (e : URLt) (tok cert uid : Option String)
    (hinvalid : isValidOtelUrl e = false)
    (hscheme : supportedScheme e.protocol = false) :
    ((AnacondaLogging.changeConnection env ls (some e) tok cert uid).result =
        .ok false ∧
      (AnacondaLogging.changeConnection env ls (some e) tok cert uid).state = ls ∧
      (AnacondaLogging.changeConnection env ls (some e) tok cert uid).constructed =
        [] ∧
      (AnacondaLogging.changeConnection env ls (some e) tok cert uid).shutdownCalls =
        []) ∧
    ((AnacondaTrace.changeConnection env ts (some e) tok cert).result =
        .ok false ∧
      (AnacondaTrace.changeConnection env ts (some e) tok cert).state.traceEndpoint.1 =
        e ∧
      (AnacondaTrace.changeConnection env ts (some e) tok cert).state.parentExporter =
        ts.parentExporter ∧
      (AnacondaTrace.changeConnection env ts (some e) tok cert).constructed = [] ∧
      (AnacondaTrace.changeConnection env ts (some e) tok cert).shutdownCalls =
        []) := by
  constructor
  · refine ⟨?_, ?_, ?_, ?_⟩ <;>
      simp [AnacondaLogging.changeConnection, hinvalid]
  · have hsch2 : supportedScheme (transformURL e).1 = false := hscheme
    have hmk := traceMakeExporter_none (transformURL e).1 (transformURL e).2
      (makeHeaders (transformURL e).1 tok)
      (readCredentials env.fsRead (transformURL e).1
        (if cert = ts.traceEndpoint.2.2 then ts.traceEndpoint.2.2 else cert))
      hsch2
    unfold AnacondaTrace.changeConnection
    simp [hmk]

/-- Witness for C3 (amended): at the concrete bad-scheme URL
`ftp://somehost.domain:34545/` against the sample states. -/
theorem C3_invalid_scheme_behavior_witness :
    ((AnacondaLogging.changeConnection okChangeEnv sampleLoggingState
        (some ftpUrl) none none none).result = .ok false ∧
      (AnacondaLogging.changeConnection okChangeEnv sampleLoggingState
        (some ftpUrl) none none none).state = sampleLoggingState ∧
      (AnacondaLogging.changeConnection okChangeEnv sampleLoggingState
        (some ftpUrl) none none none).constructed = [] ∧
      (AnacondaLogging.changeConnection okChangeEnv sampleLoggingState
        (some ftpUrl) none none none).shutdownCalls = []) ∧
    ((AnacondaTrace.changeConnection okChangeEnv sampleTraceState
        (some ftpUrl) none none).result = .ok false ∧
      (AnacondaTrace.changeConnection okChangeEnv sampleTraceState
        (some ftpUrl) none none).state.traceEndpoint.1 = ftpUrl ∧
      (AnacondaTrace.changeConnection okChangeEnv sampleTraceState
        (some ftpUrl) none none).state.parentExporter =
        sampleTraceState.parentExporter ∧
      (AnacondaTrace.changeConnection okChangeEnv sampleTraceState
        (some ftpUrl) none none).constructed = [] ∧
      (AnacondaTrace.changeConnection okChangeEnv sampleTraceState
        (some ftpUrl) none none).shutdownCalls = []) :=
  C3_invalid_scheme_behavior okChangeEnv sampleLoggingState sampleTraceState
    ftpUrl none none none (by decide) (by decide)

/-- Counterexample to C4: on the sample logging state, whose stored
authToken is `some "tok"`, calling `changeConnection` with every
parameter omitted (all `undefined`) succeeds and CLEARS the stored
authToken to `undefined` — an omitted field does not keep the current
value for the authToken (and certFile) slots. -/
theorem C4_counterexample_cleared_token :
    sampleLoggingState.loggingEndpoint.2.1 = some "tok" ∧
    (AnacondaLogging.changeConnection okChangeEnv sampleLoggingState
        none none none none).result = .ok true ∧
    (AnacondaLogging.changeConnection okChangeEnv sampleLoggingState
        none none none none).state.loggingEndpoint.2.1 = none :=
  ⟨rfl, rfl, rfl⟩

/-- Claim C4 as amended: only the endpoint parameter has keep-on-omitted
semantics.  With the endpoint omitted, the stored URL is kept, but the
stored authToken and certFile always end up equal to the passed
parameters — passing `undefined` clears them rather than keeping the
current values.  This holds for the logging and the trace flow alike. -/
theorem C4_merge_semantics (env : ChangeEnv) (ls : LoggingState)
    (ts : TraceState) (tok cert uid : Option String) :
    (AnacondaLogging.changeConnection env ls none tok cert uid).state.loggingEndpoint =
      (ls.loggingEndpoint.1, tok, cert) ∧
    (AnacondaTrace.changeConnection env ts none tok cert).state.traceEndpoint =
      (ts.traceEndpoint.1, tok, cert) := by
  constructor
  · unfold AnacondaLogging.changeConnection
    have htok : (if tok ≠ ls.loggingEndpoint.2.1 then tok
        else ls.loggingEndpoint.2.1) = tok := by
      by_cases h : tok = ls.loggingEndpoint.2.1 <;> simp [h]
    have hcert : (if cert ≠ ls.loggingEndpoint.2.2 then cert
        else ls.loggingEndpoint.2.2) = cert := by
      by_cases h : cert = ls.loggingEndpoint.2.2 <;> simp [h]
    simp only [htok, hcert]
    repeat' (first | rfl | split | simp_all)
  · unfold AnacondaTrace.changeConnection
    have htok : (if tok ≠ ts.traceEndpoint.2.1 then tok
        else ts.traceEndpoint.2.1) = tok := by
      by_cases h : tok = ts.traceEndpoint.2.1 <;> simp [h]
    have hcert : (if cert ≠ ts.traceEndpoint.2.2 then cert
        else ts.traceEndpoint.2.2) = cert := by
      by_cases h : cert = ts.traceEndpoint.2.2 <;> simp [h]
    simp only [htok, hcert]
    repeat' (first | rfl | split | simp_all)

/-- Claim C5: from every shim state, including a shut-down one,
`swapExporter(newSink)` returns the previously current sink, installs the
new sink and clears the shutdown flag; an export issued after the swap is
served by the new sink (it takes the locked path and touches exactly the
new sink) instead of failing fast as shut down. -/
theorem C5_swapExporter_installs_new_sink (beh : SinkEnv) (s : ShimState)
    (newExporter : Nat) :
    (s.swapExporter newExporter).1 = s._internalExporter ∧
    (s.swapExporter newExporter).2 =
      { _internalExporter := newExporter, _shutdown := false } ∧
    (ShimState.exportCall beh (s.swapExporter newExporter).2).usedLock = true ∧
    (ShimState.exportCall beh (s.swapExporter newExporter).2).touched =
      [newExporter] := by
  refine ⟨rfl, rfl, ?_, ?_⟩ <;>
    cases h : (beh newExporter).exportBeh <;>
      simp [ShimState.exportCall, ShimState.swapExporter, h]

/-- Claim C6: once the shim's `shutdown()` has resolved (and before any
swap), every `export(batch, onDone)` call invokes `onDone` exactly once
with the FAILED code and the exporter-is-shutdown error, without
acquiring the mutex and without invoking any sink's `export`. -/
theorem C6_export_failfast_after_shutdown (beh : SinkEnv) (s : ShimState)
    (hres : (ShimState.shutdownCall beh s).result = .ok ()) :
    ShimState.exportCall beh (ShimState.shutdownCall beh s).state =
      { callbacks := [⟨ExportResultCode.FAILED, some "exporter is shutdown"⟩]
        touched := []
        usedLock := false
        state := (ShimState.shutdownCall beh s).state } := by
  have hsd : (ShimState.shutdownCall beh s).state._shutdown = true := by
    cases hc : s._shutdown
    · cases hb : (beh s._internalExporter).shutdownBeh with
      | ok a => simp [ShimState.shutdownCall, hc, hb]
      | error m => simp [ShimState.shutdownCall, hc, hb] at hres
    · simp [ShimState.shutdownCall, hc]
  simp [ShimState.exportCall, hsd]

/-- Witness for C6: a fresh shim over the all-succeeding sink 0 is shut
down, and the following export fail-fasts. -/
theorem C6_export_failfast_after_shutdown_witness :
    (ShimState.shutdownCall sampleSinks ⟨0, false⟩).result = .ok () ∧
    ShimState.exportCall sampleSinks
        (ShimState.shutdownCall sampleSinks ⟨0, false⟩).state =
      { callbacks := [⟨ExportResultCode.FAILED, some "exporter is shutdown"⟩]
        touched := []
        usedLock := false
        state := (ShimState.shutdownCall sampleSinks ⟨0, false⟩).state } :=
  ⟨rfl, C6_export_failfast_after_shutdown sampleSinks ⟨0, false⟩ rfl⟩

/-- Counterexample to C7: for a shim whose underlying sink's `shutdown()`
rejects, the first `shutdown()` call leaves the `_shutdown` flag clear
(the flag is only set after the await), so the second sequential call
invokes the underlying sink's shutdown AGAIN — two underlying calls, and
the second call is not an immediate no-op (it takes the mutex). -/
theorem C7_counterexample_throwing_sink :
    (ShimState.shutdownCall badShutdownSinks ⟨0, false⟩).touched = [0] ∧
    (ShimState.shutdownCall badShutdownSinks
        (ShimState.shutdownCall badShutdownSinks ⟨0, false⟩).state).touched =
      [0] ∧
    (ShimState.shutdownCall badShutdownSinks
        (ShimState.shutdownCall badShutdownSinks ⟨0, false⟩).state).usedLock =
      true :=
  ⟨rfl, rfl, rfl⟩

/-- Claim C7 as amended: for a shim that is not yet shut down and whose
underlying sink's `shutdown()` resolves successfully, calling the shim's
`shutdown()` twice in sequence invokes the underlying sink's shutdown
exactly once; the second call observes the flag already set and resolves
immediately as a no-op (no mutex, no sink call, state unchanged). -/
theorem C7_shutdown_idempotent_on_success (beh : SinkEnv) (s : ShimState)
    (hflag : s._shutdown = false)
    (hok : (beh s._internalExporter).shutdownBeh = .ok ()) :
    (ShimState.shutdownCall beh s).touched = [s._internalExporter] ∧
    ShimState.shutdownCall beh (ShimState.shutdownCall beh s).state =
      { result := .ok ()
        touched := []
        usedLock := false
        state := (ShimState.shutdownCall beh s).state } := by
  have h1 : ShimState.shutdownCall beh s =
      { result := .ok ()
        touched := [s._internalExporter]
        usedLock := true
        state := { s with _shutdown := true } } := by
    simp [ShimState.shutdownCall, hflag, hok]
  constructor
  · rw [h1]
  · rw [h1]
    simp [ShimState.shutdownCall]

/-- Witness for C7 (amended): a fresh shim over the all-succeeding
sink 0. -/
theorem C7_shutdown_idempotent_on_success_witness :
    (⟨0, false⟩ : ShimState)._shutdown = false ∧
    (sampleSinks 0).shutdownBeh = .ok () ∧
    ((ShimState.shutdownCall sampleSinks ⟨0, false⟩).touched = [0] ∧
      ShimState.shutdownCall sampleSinks
          (ShimState.shutdownCall sampleSinks ⟨0, false⟩).state =
        { result := .ok ()
          touched := []
          usedLock := false
          state := (ShimState.shutdownCall sampleSinks ⟨0, false⟩).state }) :=
  ⟨rfl, rfl, C7_shutdown_idempotent_on_success sampleSinks ⟨0, false⟩ rfl rfl⟩

/-- Claim C8: for every body outcome (normal return or throw/reject),
after `runExclusive(fn)` settles the lock has been released exactly once:
the settled outcome is `fn`'s outcome, and the lock state is one
`release()` of the held state — when waiters exist, the FIFO head is
dequeued and handed the lock with `_locked` remaining `true`; otherwise
`_locked` is `false`. -/
theorem C8_runExclusive_releases_once (waiting0 arrivals : List Nat)
    (outcome : Except String Nat) :
    (Lock.runExclusiveFrom waiting0 arrivals outcome).1 = outcome ∧
    (match waiting0 ++ arrivals with
     | [] =>
         (Lock.runExclusiveFrom waiting0 arrivals outcome).2.1 =
           { locked := false, waiting := [] } ∧
         (Lock.runExclusiveFrom waiting0 arrivals outcome).2.2 = none
     | w :: ws =>
         (Lock.runExclusiveFrom waiting0 arrivals outcome).2.1 =
           { locked := true, waiting := ws } ∧
         (Lock.runExclusiveFrom waiting0 arrivals outcome).2.2 = some w) := by
  cases outcome <;>
    cases h : waiting0 ++ arrivals <;>
      simp [Lock.runExclusiveFrom, Lock.release, h]

/-- Counterexample to C9: a `changeConnection` call whose supplied
endpoint fails validation returns before the userId step, so a non-empty
`newUserId` is NOT applied — contradicting the claim that the userId
update happens even when endpoint validation fails. -/
theorem C9_counterexample_validation_skips_userid :
    0 < (jsTrim "newUser").length ∧
    (AnacondaLogging.changeConnection okChangeEnv sampleLoggingState
        (some ftpUrl) none none (some "newUser")).result = .ok false ∧
    (AnacondaLogging.changeConnection okChangeEnv sampleLoggingState
        (some ftpUrl) none none (some "newUser")).state.userId = "" ∧
    sampleLoggingState.userId = "" :=
  ⟨by decide, rfl, rfl, rfl⟩

/-- Claim C9 as amended: when the supplied endpoint is omitted or passes
validation, a `newUserId` that is non-empty after trimming is applied to
the signal's attribute state, and the update survives every later
outcome of the change — construction failure, flush rejection, swap, or
old-sink shutdown rejection.  When the supplied endpoint fails the
upfront validation, `changeConnection` returns `false` before the userId
step. -/
theorem C9_userid_applied_when_validation_passes (env : ChangeEnv)
    (st : LoggingState) (endpoint : Option URLt) (tok cert : Option String)
    (u : String)
    (hvalid : match endpoint with
      | some e => isValidOtelUrl e = true
      | none => True)
    (hu : 0 < (jsTrim u).length) :
    (AnacondaLogging.changeConnection env st endpoint tok cert
        (some u)).state.userId = jsTrim u := by
  cases endpoint with
  | none =>
      unfold AnacondaLogging.changeConnection
      repeat' (first | rfl | split | simp_all [hu])
  | some e =>
      unfold AnacondaLogging.changeConnection
      repeat' (first | rfl | split | simp_all [hu])

/-- Witness for C9 (amended): a valid endpoint and the userId
`" newUser "`; the trimmed value is stored. -/
theorem C9_userid_applied_witness :
    (AnacondaLogging.changeConnection okChangeEnv sampleLoggingState
        (some httpLogsUrl) none none (some " newUser ")).state.userId =
      jsTrim " newUser " :=
  C9_userid_applied_when_validation_passes okChangeEnv sampleLoggingState
    (some httpLogsUrl) none none " newUser " (by decide) (by decide)

/-- Claim C10: when telemetry was never (successfully) initialized, or
the selected signal kind has no instance, `changeSignalConnection`
resolves to `false` and performs no state change — no configuration
mutation, no sink construction, no swap and no sink shutdown. -/
theorem C10_changeSignalConnection_guard (env : ChangeEnv)
    (g : SignalsState) (signal : Signal) (endpoint : Option URLt)
    (tok cert : Option String)
    (h : g.initialized = false ∨
      (signal = Signal.metrics ∧ g.metrics = none) ∨
      (signal = Signal.tracing ∧ g.tracing = none)) :
    (changeSignalConnection env g signal endpoint tok cert).result =
      .ok false ∧
    (changeSignalConnection env g signal endpoint tok cert).state = g ∧
    (changeSignalConnection env g signal endpoint tok cert).constructed = [] ∧
    (changeSignalConnection env g signal endpoint tok cert).shutdownCalls =
      [] := by
  rcases h with h | ⟨hs, hm⟩ | ⟨hs, ht⟩
  · refine ⟨?_, ?_, ?_, ?_⟩ <;> simp [changeSignalConnection, h]
  · subst hs
    by_cases hi : g.initialized = false
    · refine ⟨?_, ?_, ?_, ?_⟩ <;> simp [changeSignalConnection, hi]
    · refine ⟨?_, ?_, ?_, ?_⟩ <;> simp [changeSignalConnection, hi, hm]
  · subst hs
    by_cases hi : g.initialized = false
    · refine ⟨?_, ?_, ?_, ?_⟩ <;> simp [changeSignalConnection, hi]
    · refine ⟨?_, ?_, ?_, ?_⟩ <;> simp [changeSignalConnection, hi, ht]

/-- Witness for C10: the uninitialized module state. -/
theorem C10_changeSignalConnection_guard_witness :
    (changeSignalConnection okChangeEnv ⟨false, none, none⟩ Signal.metrics
        none none none).result = .ok false ∧
    (changeSignalConnection okChangeEnv ⟨false, none, none⟩ Signal.metrics
        none none none).state = ⟨false, none, none⟩ ∧
    (changeSignalConnection okChangeEnv ⟨false, none, none⟩ Signal.metrics
        none none none).constructed = [] ∧
    (changeSignalConnection okChangeEnv ⟨false, none, none⟩ Signal.metrics
        none none none).shutdownCalls = [] :=
  C10_changeSignalConnection_guard okChangeEnv ⟨false, none, none⟩
    Signal.metrics none none none (Or.inl rfl)
